import Mathlib

/-!
# Verification of the cat-raoke music subscription core (src/src/music/youtube.ts)

Shallow embedding of the `MusicSubscription` class, the module-level
`subscriptions` registry and the `joinVCAndCreateSubscription` bootstrap.
Effects on the audio player, the voice connection and the notification sink
are made explicit state / result fields; the outcomes of the asynchronous
`entersState` waits are supplied as boolean oracles.
-/

/-- Audio player statuses from `@discordjs/voice` (`AudioPlayerStatus`). -/
inductive AudioPlayerStatus
  | Idle
  | Buffering
  | Paused
  | AutoPaused
  | Playing
deriving DecidableEq, Repr

/-- Voice connection statuses from `@discordjs/voice` (`VoiceConnectionStatus`). -/
inductive VoiceConnectionStatus
  | Signalling
  | Connecting
  | Ready
  | Disconnected
  | Destroyed
deriving DecidableEq, Repr

/-- Disconnect reasons from `@discordjs/voice` (`VoiceConnectionDisconnectReason`). -/
inductive VoiceConnectionDisconnectReason
  | WebSocketClose
  | AdapterUnavailable
  | EndpointRemoved
  | Manual
deriving DecidableEq, Repr

/-- Modelled from the spec: the `Track` type comes from `./track.js`, which is
not under `src/`. Per the spec a Track is "an inert descriptor of a playable
item plus a factory that produces a streamable audio resource on demand"; the
factory "fails with a materialization error on bad/unavailable source". The
field `data` mirrors the access `(resource.metadata).data.title` in
`youtube.ts`; `createAudioResource` is the materialization outcome: `.ok` a
resource, or `.error` carrying the failure message used by `onError`. -/
structure TrackData where
  title : String
deriving DecidableEq, Repr

deriving instance DecidableEq for Except

structure Track where
  data : TrackData
  createAudioResource : Except String Unit
deriving DecidableEq, Repr

/-- Messages sent to the text-notification channel. Each constructor stands
for one `send`/`followUp` call site in `youtube.ts`; the literal (French)
texts are irrelevant to the state machine and are kept as tags, with the
dynamic payload (an error message) as an argument. -/
inductive Notification
  | errorNote (msg : String)
  | queueEmptyNote
  | nowPlayingNote (title : String)
  | rejoinVoiceFirstNote
  | joinTimeoutNote
  | joinedChannelNote
deriving DecidableEq, Repr

/-- State of one `MusicSubscription`: its queue, the two boolean locks, and
the observable effects on its owned audio player (status, current resource)
plus the notifications it has sent so far (`notes`, in send order). -/
structure MusicSubscription where
  queue : List Track
  queueLock : Bool
  readyLock : Bool
  playerStatus : AudioPlayerStatus
  playing : Option Track
  notes : List Notification
deriving DecidableEq, Repr

/-- The freshly constructed subscription: empty queue, both locks clear,
`createAudioPlayer()` starts in `Idle` with no resource. -/
def MusicSubscription.init : MusicSubscription :=
  { queue := [], queueLock := false, readyLock := false,
    playerStatus := AudioPlayerStatus.Idle, playing := none, notes := [] }

/-- The message of the `TypeError` thrown when `this.queue.shift()!` has
produced `undefined` (empty queue) and `nextTrack.createAudioResource()`
dereferences it. The exact JS runtime wording is irrelevant; what matters is
that `onError` is invoked with this error. -/
def typeErrorMessage : String :=
  "TypeError: cannot read createAudioResource of undefined"

/-- Result of one pass through the body of `processQueue`:
either the call returns (`done`), or it reaches
`return this.processQueue()` and recurses (`recurse`). -/
inductive PQResult
  | done (s : MusicSubscription)
  | recurse (s : MusicSubscription)
deriving DecidableEq, Repr

/-- One pass through the body of `MusicSubscription.processQueue`
(youtube.ts lines 292-318), translated statement by statement:

* the guard tests ONLY `this.queueLock` and
  `this.audioPlayer.state.status !== AudioPlayerStatus.Idle`
  (the source comment also mentions "is empty", but the condition contains
  no emptiness test);
* then `this.queueLock = true`;
* `this.queue.shift()!` removes the head; on an empty queue it yields
  `undefined`, so `nextTrack.createAudioResource()` throws a `TypeError`
  that the `catch` block handles like a materialization failure;
* on success `this.audioPlayer.play(resource)` (status becomes `Playing`,
  the resource's metadata is the track) then `this.queueLock = false`;
* on failure `this.onError(error)` sends `Erreur: ...` with the error's
  message, `this.queueLock = false`, and the function recurses. -/
def MusicSubscription.processQueueIter (s : MusicSubscription) : PQResult :=
  if s.queueLock = true ∨ s.playerStatus ≠ AudioPlayerStatus.Idle then
    PQResult.done s
  else
    match s.queue with
    | [] =>
      PQResult.recurse
        { s with queue := [], queueLock := false,
                 notes := s.notes ++ [Notification.errorNote typeErrorMessage] }
    | t :: rest =>
      match t.createAudioResource with
      | Except.ok _ =>
        PQResult.done
          { s with queue := rest, queueLock := false,
                   playerStatus := AudioPlayerStatus.Playing, playing := some t }
      | Except.error e =>
        PQResult.recurse
          { s with queue := rest, queueLock := false,
                   notes := s.notes ++ [Notification.errorNote e] }

/-- `MusicSubscription.processQueue`, with `fuel` bounding the number of
`return this.processQueue()` self-calls. `none` means the bound was hit, i.e.
the call still had not returned after `fuel` recursive calls; a call that
returns without recursing succeeds for every fuel, including `0`. -/
def MusicSubscription.processQueue (fuel : Nat) (s : MusicSubscription) :
    Option MusicSubscription :=
  match s.processQueueIter with
  | PQResult.done s2 => some s2
  | PQResult.recurse s2 =>
    match fuel with
    | 0 => none
    | f + 1 => MusicSubscription.processQueue f s2

/-- `MusicSubscription.stop` (youtube.ts lines 283-287): sets `queueLock`,
clears the queue, and `this.audioPlayer.stop(true)` force-stops the player
(status `Idle`, resource dropped). -/
def MusicSubscription.stop (s : MusicSubscription) : MusicSubscription :=
  { s with queueLock := true, queue := [],
           playerStatus := AudioPlayerStatus.Idle, playing := none }

/-- `MusicSubscription.enqueue` (youtube.ts lines 275-278): push the track at
the tail, then call `processQueue`. -/
def MusicSubscription.enqueue (fuel : Nat) (t : Track) (s : MusicSubscription) :
    Option MusicSubscription :=
  MusicSubscription.processQueue fuel { s with queue := s.queue ++ [t] }

/-- A public queue operation on a subscription, for stating what later calls
can do after `stop()`. -/
inductive SubOp
  | enqueueOp (t : Track)
  | processQueueOp
deriving DecidableEq, Repr

/-- Run a sequence of queue operations, each `processQueue` bounded by `fuel`. -/
def runOps (fuel : Nat) : List SubOp → MusicSubscription → Option MusicSubscription
  | [], s => some s
  | op :: ops, s =>
    match (match op with
           | SubOp.enqueueOp t => MusicSubscription.enqueue fuel t s
           | SubOp.processQueueOp => MusicSubscription.processQueue fuel s) with
    | none => none
    | some s2 => runOps fuel ops s2

-- Helper lemmas

/-- When the queue lock is held, `processQueue` returns at the guard,
unchanged, for every fuel. -/
theorem processQueue_locked (fuel : Nat) (s : MusicSubscription)
    (h : s.queueLock = true) : s.processQueue fuel = some s := by
  unfold MusicSubscription.processQueue MusicSubscription.processQueueIter
  simp [h]

/-- When the player is not idle, `processQueue` returns at the guard,
unchanged, for every fuel. -/
theorem processQueue_notIdle (fuel : Nat) (s : MusicSubscription)
    (h : s.playerStatus ≠ AudioPlayerStatus.Idle) :
    s.processQueue fuel = some s := by
  unfold MusicSubscription.processQueue MusicSubscription.processQueueIter
  simp [h]

-- Connection-resilience state machine (the voiceConnection stateChange handler)

/-- The `newState` argument of the `stateChange` listener. `reason` and
`closeCode` are carried only by `Disconnected` states, hence `Option`. -/
structure VCNewState where
  status : VoiceConnectionStatus
  reason : Option VoiceConnectionDisconnectReason
  closeCode : Option Nat
deriving DecidableEq, Repr

/-- Oracles for the asynchronous waits inside the handler:
* `connectingWithin5s` — whether
  `entersState(conn, Connecting, 5000)` resolves (the connection reaches
  `Connecting` within 5 seconds) or rejects (timeout);
* `readyWithin20s` — whether `entersState(conn, Ready, 20000)` resolves
  (reaches `Ready` within 20 seconds) or rejects (timeout or error);
* `statusAtTimeout` — `this.voiceConnection.state.status` as observed
  inside the catch block of the ready wait. -/
structure StateChangeEnv where
  connectingWithin5s : Bool
  readyWithin20s : Bool
  statusAtTimeout : VoiceConnectionStatus
deriving DecidableEq, Repr

/-- Observable effects of one run of the `stateChange` handler:
* `destroyed` — whether `this.voiceConnection.destroy()` was called;
* `rejoinBackoffMs` — `some b` when a rejoin was performed after waiting
  `b` milliseconds (`await wait(...)` then `this.voiceConnection.rejoin()`);
* `stoppedSubscription` — whether `this.stop()` was called;
* `enteredReadyWait` — whether the Signalling/Connecting branch ran
  (so `this.readyLock = true` was executed before the wait);
* `readyLockAfter` — the value of `this.readyLock` when the handler
  finishes. -/
structure HandlerResult where
  destroyed : Bool
  rejoinBackoffMs : Option Nat
  stoppedSubscription : Bool
  enteredReadyWait : Bool
  readyLockAfter : Bool
deriving DecidableEq, Repr

/-- The voiceConnection `stateChange` handler (youtube.ts lines 145-215),
branch by branch:

* `Disconnected` with `reason === WebSocketClose && closeCode === 4014`:
  wait up to 5 s for `Connecting`; if reached, do nothing (probably a
  channel move); on timeout, `destroy()` (probably kicked);
* other `Disconnected` with `rejoinAttempts < 5`: `await wait((attempts+1)
  * 5_000)` then `rejoin()`;
* other `Disconnected` with `rejoinAttempts >= 5`: `destroy()`;
* `Destroyed`: `this.stop()`;
* `Connecting` or `Signalling` while `!this.readyLock`: set `readyLock`,
  wait up to 20 s for `Ready`; in the catch, `destroy()` unless the
  connection state is already `Destroyed`; the `finally` clears
  `readyLock` on every path;
* anything else (e.g. `Ready`, or Connecting/Signalling while already
  waiting): no effect. -/
def onStateChange (env : StateChangeEnv) (rejoinAttempts : Nat)
    (readyLock : Bool) (newState : VCNewState) : HandlerResult :=
  if newState.status = VoiceConnectionStatus.Disconnected then
    if newState.reason = some VoiceConnectionDisconnectReason.WebSocketClose ∧
        newState.closeCode = some 4014 then
      if env.connectingWithin5s then
        { destroyed := false, rejoinBackoffMs := none,
          stoppedSubscription := false, enteredReadyWait := false,
          readyLockAfter := readyLock }
      else
        { destroyed := true, rejoinBackoffMs := none,
          stoppedSubscription := false, enteredReadyWait := false,
          readyLockAfter := readyLock }
    else if rejoinAttempts < 5 then
      { destroyed := false,
        rejoinBackoffMs := some ((rejoinAttempts + 1) * 5000),
        stoppedSubscription := false, enteredReadyWait := false,
        readyLockAfter := readyLock }
    else
      { destroyed := true, rejoinBackoffMs := none,
        stoppedSubscription := false, enteredReadyWait := false,
        readyLockAfter := readyLock }
  else if newState.status = VoiceConnectionStatus.Destroyed then
    { destroyed := false, rejoinBackoffMs := none,
      stoppedSubscription := true, enteredReadyWait := false,
      readyLockAfter := readyLock }
  else if readyLock = false ∧
      (newState.status = VoiceConnectionStatus.Connecting ∨
       newState.status = VoiceConnectionStatus.Signalling) then
    if env.readyWithin20s then
      { destroyed := false, rejoinBackoffMs := none,
        stoppedSubscription := false, enteredReadyWait := true,
        readyLockAfter := false }
    else if env.statusAtTimeout ≠ VoiceConnectionStatus.Destroyed then
      { destroyed := true, rejoinBackoffMs := none,
        stoppedSubscription := false, enteredReadyWait := true,
        readyLockAfter := false }
    else
      { destroyed := false, rejoinBackoffMs := none,
        stoppedSubscription := false, enteredReadyWait := true,
        readyLockAfter := false }
  else
    { destroyed := false, rejoinBackoffMs := none,
      stoppedSubscription := false, enteredReadyWait := false,
      readyLockAfter := readyLock }

-- Session registry and bootstrap

/-- The module-level `subscriptions` map (youtube.ts line 51), guild id →
subscription, modelled extensionally. The module only ever calls `set` on it;
no call site removes an entry. -/
def Registry : Type := String → Option MusicSubscription

/-- `Map.set`, as used at youtube.ts line 78. -/
def Registry.set (reg : Registry) (gid : String) (sub : MusicSubscription) :
    Registry :=
  fun k => if k = gid then some sub else reg k

/-- The empty registry. -/
def Registry.empty : Registry := fun _ => none

/-- The `Destroyed` branch of the `stateChange` handler (youtube.ts lines
182-186). Its body is exactly `this.stop();` — the `subscriptions` map is in
scope but the branch performs no operation on it, so the registry passes
through unchanged. -/
def handleDestroyedBranch (reg : Registry) (_gid : String)
    (s : MusicSubscription) : Registry × MusicSubscription :=
  (reg, s.stop)

/-- Oracles for `joinVCAndCreateSubscription`:
* `memberHasVoiceChannel` — whether `interaction.member` is a `GuildMember`
  currently in a voice channel;
* `readyWithin20s` — whether `entersState(conn, Ready, 20e3)` resolves. -/
structure BootstrapEnv where
  memberHasVoiceChannel : Bool
  readyWithin20s : Bool
deriving DecidableEq, Repr

/-- Result of the bootstrap: the registry afterwards, the returned value
(`some` subscription or `none` for the `void` returns), and the `followUp`
messages sent, in order. -/
structure BootstrapResult where
  registry : Registry
  returned : Option MusicSubscription
  notes : List Notification

/-- `joinVCAndCreateSubscription` (youtube.ts lines 53-110):

* with an existing subscription supplied, return it unchanged;
* otherwise, if the caller is in a voice channel, construct a new
  `MusicSubscription` and `subscriptions.set(guildId, subscription)`;
* if no subscription was constructed, follow up asking the caller to join a
  voice channel first, and return nothing;
* wait up to 20 s for `Ready`; on failure follow up with the join-timeout
  message and return nothing (the registry write is not rolled back);
* on success follow up with the joined channel's name and return the
  subscription. -/
def joinVCAndCreateSubscription (env : BootstrapEnv)
    (subscription : Option MusicSubscription) (reg : Registry)
    (guildId : String) : BootstrapResult :=
  match subscription with
  | some sub => { registry := reg, returned := some sub, notes := [] }
  | none =>
    if env.memberHasVoiceChannel then
      let sub := MusicSubscription.init
      let reg2 := reg.set guildId sub
      if env.readyWithin20s then
        { registry := reg2, returned := some sub,
          notes := [Notification.joinedChannelNote] }
      else
        { registry := reg2, returned := none,
          notes := [Notification.joinTimeoutNote] }
    else
      { registry := reg, returned := none,
        notes := [Notification.rejoinVoiceFirstNote] }

-- More helper lemmas

/-- Any sequence of `enqueue`/`processQueue` operations run on a subscription
whose queue lock is held, with an idle player and no resource loaded, keeps
the lock held, the player idle and no resource loaded: `processQueue` returns
at its guard, and `enqueue` only appends to the queue before doing so. -/
theorem runOps_locked_inv (fuel : Nat) (ops : List SubOp)
    (s s2 : MusicSubscription) (hlock : s.queueLock = true)
    (hidle : s.playerStatus = AudioPlayerStatus.Idle) (hplay : s.playing = none)
    (h : runOps fuel ops s = some s2) :
    s2.queueLock = true ∧ s2.playerStatus = AudioPlayerStatus.Idle ∧
      s2.playing = none := by
  induction ops generalizing s with
  | nil =>
    simp only [runOps, Option.some.injEq] at h
    subst h
    exact ⟨hlock, hidle, hplay⟩
  | cons op ops ih =>
    cases op with
    | enqueueOp t =>
      rw [runOps] at h
      rw [MusicSubscription.enqueue,
        processQueue_locked fuel { s with queue := s.queue ++ [t] } hlock] at h
      exact ih { s with queue := s.queue ++ [t] } hlock hidle hplay h
    | processQueueOp =>
      rw [runOps] at h
      rw [processQueue_locked fuel s hlock] at h
      exact ih s hlock hidle hplay h

-- Claim theorems

/-- C1: the claim says a `processQueue` call always terminates, with the
failure recursion stopping once the queue empties (an invocation reaching an
empty queue "returns rather than recursing again"). The code refutes this:
its guard never tests queue emptiness, so on any all-failing queue (the empty
queue included, `pairs = []`) the recursion re-enters with an empty queue,
shifts `undefined`, throws, reports the error and recurses again — for every
recursion bound `fuel`, the call has still not returned. -/
theorem spec_C1 (fuel : Nat) (pairs : List (TrackData × String)) (rl : Bool)
    (p : Option Track) (ns : List Notification) :
    MusicSubscription.processQueue fuel
      { queue := pairs.map fun pr => Track.mk pr.1 (Except.error pr.2),
        queueLock := false, readyLock := rl,
        playerStatus := AudioPlayerStatus.Idle, playing := p, notes := ns } =
      none := by
  induction fuel generalizing pairs ns with
  | zero =>
    cases pairs with
    | nil => rfl
    | cons pr ps =>
      simp [MusicSubscription.processQueue, MusicSubscription.processQueueIter]
  | succ f ih =>
    cases pairs with
    | nil =>
      rw [MusicSubscription.processQueue]
      simp only [MusicSubscription.processQueueIter, List.map_nil]
      simpa using ih [] (ns ++ [Notification.errorNote typeErrorMessage])
    | cons pr ps =>
      rw [MusicSubscription.processQueue]
      simp only [MusicSubscription.processQueueIter, List.map_cons]
      simpa using ih ps (ns ++ [Notification.errorNote pr.2])

/-- C2: after `stop()`, whatever the prior state, the queue is empty and the
player is force-stopped (idle, no resource); and any subsequent sequence of
`enqueue`/`processQueue` calls leaves the queue lock held and never starts
playback (the player stays idle with no resource), because `stop()`'s lock is
never released: `processQueue` only unlocks after it has itself taken the
lock, which the held lock prevents. -/
theorem spec_C2 (s : MusicSubscription) (fuel : Nat) (ops : List SubOp)
    (s2 : MusicSubscription) (h : runOps fuel ops s.stop = some s2) :
    s.stop.queue = [] ∧ s.stop.queueLock = true ∧
      s.stop.playerStatus = AudioPlayerStatus.Idle ∧ s.stop.playing = none ∧
      s2.queueLock = true ∧ s2.playerStatus = AudioPlayerStatus.Idle ∧
      s2.playing = none := by
  refine ⟨rfl, rfl, rfl, rfl, ?_, ?_, ?_⟩ <;>
    have := runOps_locked_inv fuel ops s.stop s2 rfl rfl rfl h
  · exact this.1
  · exact this.2.1
  · exact this.2.2

/-- A concrete playable track, used in witnesses. -/
def sampleTrack : Track := Track.mk ⟨"sample"⟩ (Except.ok ())

/-- C2 witness: a fresh subscription is stopped, then a `processQueue` call
and an `enqueue` call are made; the lock stays held and the player idle. -/
theorem spec_C2_witness :
    MusicSubscription.init.stop.queue = [] ∧
      MusicSubscription.init.stop.queueLock = true ∧
      MusicSubscription.init.stop.playerStatus = AudioPlayerStatus.Idle ∧
      MusicSubscription.init.stop.playing = none ∧
      ({ queue := [sampleTrack], queueLock := true, readyLock := false,
         playerStatus := AudioPlayerStatus.Idle, playing := none,
         notes := [] : MusicSubscription }).queueLock = true ∧
      ({ queue := [sampleTrack], queueLock := true, readyLock := false,
         playerStatus := AudioPlayerStatus.Idle, playing := none,
         notes := [] : MusicSubscription }).playerStatus =
        AudioPlayerStatus.Idle ∧
      ({ queue := [sampleTrack], queueLock := true, readyLock := false,
         playerStatus := AudioPlayerStatus.Idle, playing := none,
         notes := [] : MusicSubscription }).playing = none :=
  spec_C2 MusicSubscription.init 2
    [SubOp.processQueueOp, SubOp.enqueueOp sampleTrack]
    { queue := [sampleTrack], queueLock := true, readyLock := false,
      playerStatus := AudioPlayerStatus.Idle, playing := none, notes := [] }
    (by decide)

/-- C3: the claim says the guard guarantees the shifted head is an actual
Track. The code refutes this: on a call made with the queue empty, the lock
clear and the player idle, the guard condition is false (it tests neither
emptiness), so the body proceeds, `shift()` yields `undefined`, no track is
obtained, and the pass ends in the catch block with a `TypeError` error
notification and a further recursion instead of playing anything. -/
theorem spec_C3 :
    ¬(MusicSubscription.init.queueLock = true ∨
        MusicSubscription.init.playerStatus ≠ AudioPlayerStatus.Idle) ∧
      MusicSubscription.init.queue = [] ∧
      MusicSubscription.init.processQueueIter =
        PQResult.recurse
          { queue := [], queueLock := false, readyLock := false,
            playerStatus := AudioPlayerStatus.Idle, playing := none,
            notes := [Notification.errorNote typeErrorMessage] } := by
  refine ⟨?_, rfl, ?_⟩ <;> decide

/-- C4: a `processQueue` call made while the queue lock is held, or while the
player is not idle, returns immediately with the whole subscription state
(queue, locks, player) unchanged. -/
theorem spec_C4 (fuel : Nat) (s : MusicSubscription)
    (h : s.queueLock = true ∨ s.playerStatus ≠ AudioPlayerStatus.Idle) :
    s.processQueue fuel = some s := by
  rcases h with h | h
  · exact processQueue_locked fuel s h
  · exact processQueue_notIdle fuel s h

/-- C4 witness: a locked fresh subscription; `processQueue` is the identity. -/
theorem spec_C4_witness :
    MusicSubscription.processQueue 0
      { queue := [], queueLock := true, readyLock := false,
        playerStatus := AudioPlayerStatus.Idle, playing := none, notes := [] } =
      some
        { queue := [], queueLock := true, readyLock := false,
          playerStatus := AudioPlayerStatus.Idle, playing := none,
          notes := [] } :=
  spec_C4 0
    { queue := [], queueLock := true, readyLock := false,
      playerStatus := AudioPlayerStatus.Idle, playing := none, notes := [] }
    (Or.inl rfl)

/-- C5: on an unlocked, idle subscription whose queue starts with `k`
failing tracks (`pairs`, any `k`) followed by a succeeding track and then
anything, `processQueue` (with `k` allowed recursions) plays the succeeding
track — it becomes the loaded resource and the player enters `Playing` —
and appends exactly `k` error notifications, one per failing track, in queue
order. -/
theorem spec_C5 (pairs : List (TrackData × String)) (d : TrackData)
    (rest : List Track) (rl : Bool) (p : Option Track)
    (ns : List Notification) :
    MusicSubscription.processQueue pairs.length
      { queue := (pairs.map fun pr => Track.mk pr.1 (Except.error pr.2)) ++
          Track.mk d (Except.ok ()) :: rest,
        queueLock := false, readyLock := rl,
        playerStatus := AudioPlayerStatus.Idle, playing := p, notes := ns } =
      some
        { queue := rest, queueLock := false, readyLock := rl,
          playerStatus := AudioPlayerStatus.Playing,
          playing := some (Track.mk d (Except.ok ())),
          notes := ns ++ pairs.map fun pr => Notification.errorNote pr.2 } := by
  induction pairs generalizing ns with
  | nil =>
    simp [MusicSubscription.processQueue, MusicSubscription.processQueueIter]
  | cons pr ps ih =>
    rw [List.length_cons, MusicSubscription.processQueue]
    simp only [MusicSubscription.processQueueIter, List.map_cons,
      List.cons_append]
    simpa [List.append_assoc] using ih (ns ++ [Notification.errorNote pr.2])

/-- C6 counterexample: a registry holding one subscription under guild id
`"g"`; the voice session enters `Destroyed`, which runs the `Destroyed`
branch (`this.stop()`), yet the registry still maps `"g"` to the
subscription — the entry was not removed, refuting the claim that it is. -/
theorem spec_C6_counterexample :
    ¬((handleDestroyedBranch
          (Registry.set Registry.empty "g" MusicSubscription.init) "g"
          MusicSubscription.init).1 "g" = none) := by
  simp [handleDestroyedBranch, Registry.set]

/-- C6 (amended): when the voice session enters `Destroyed`, the handler
calls `stop()` — the queue is cleared, the lock set, the player force-stopped
— but the Session Registry is left entirely unchanged: its entry for the
subscription persists (the module never deletes registry entries). -/
theorem spec_C6 (reg : Registry) (gid : String) (s : MusicSubscription) :
    (handleDestroyedBranch reg gid s).1 = reg ∧
      (handleDestroyedBranch reg gid s).2 = s.stop ∧
      (handleDestroyedBranch reg gid s).2.queue = [] ∧
      (handleDestroyedBranch reg gid s).2.queueLock = true ∧
      (handleDestroyedBranch reg gid s).2.playerStatus =
        AudioPlayerStatus.Idle :=
  ⟨rfl, rfl, rfl, rfl, rfl⟩

/-- C7: on a `Disconnected` event with reason `WebSocketClose` and close code
4014, if the connection reaches `Connecting` within the 5-second wait the
handler takes no action at all (no destroy, no rejoin, no stop); if the wait
times out, the handler destroys the voice connection. -/
theorem spec_C7 (r20 : Bool) (sat : VoiceConnectionStatus) (ra : Nat)
    (rl : Bool) :
    onStateChange
      { connectingWithin5s := true, readyWithin20s := r20,
        statusAtTimeout := sat } ra rl
      { status := VoiceConnectionStatus.Disconnected,
        reason := some VoiceConnectionDisconnectReason.WebSocketClose,
        closeCode := some 4014 } =
      { destroyed := false, rejoinBackoffMs := none,
        stoppedSubscription := false, enteredReadyWait := false,
        readyLockAfter := rl } ∧
    (onStateChange
      { connectingWithin5s := false, readyWithin20s := r20,
        statusAtTimeout := sat } ra rl
      { status := VoiceConnectionStatus.Disconnected,
        reason := some VoiceConnectionDisconnectReason.WebSocketClose,
        closeCode := some 4014 }).destroyed = true := by
  constructor <;> simp [onStateChange]

/-- C8: on any `Disconnected` event that is not the WebSocketClose-4014 case,
a rejoin-attempt counter below 5 produces a rejoin scheduled after a backoff
of `(attempts + 1) * 5000` milliseconds and nothing else; a counter of 5 or
more produces a destroy. Instantiating the counter at 0,1,2,3,4 gives the
backoffs 5000, 10000, 15000, 20000, 25000 ms; at 5 the connection is
destroyed. -/
theorem spec_C8 (env : StateChangeEnv) (ra : Nat) (rl : Bool)
    (reason : Option VoiceConnectionDisconnectReason) (code : Option Nat)
    (h : ¬(reason = some VoiceConnectionDisconnectReason.WebSocketClose ∧
        code = some 4014)) :
    (ra < 5 →
      onStateChange env ra rl
        { status := VoiceConnectionStatus.Disconnected, reason := reason,
          closeCode := code } =
        { destroyed := false, rejoinBackoffMs := some ((ra + 1) * 5000),
          stoppedSubscription := false, enteredReadyWait := false,
          readyLockAfter := rl }) ∧
    (5 ≤ ra →
      onStateChange env ra rl
        { status := VoiceConnectionStatus.Disconnected, reason := reason,
          closeCode := code } =
        { destroyed := true, rejoinBackoffMs := none,
          stoppedSubscription := false, enteredReadyWait := false,
          readyLockAfter := rl }) := by
  constructor <;> intro hra
  · simp [onStateChange, h, hra]
  · simp [onStateChange, h, Nat.not_lt.mpr hra]

/-- C8 witness: a non-4014 disconnect (reason `Manual`) with counter 0
schedules a rejoin after 5000 ms. -/
theorem spec_C8_witness :
    onStateChange
      { connectingWithin5s := true, readyWithin20s := true,
        statusAtTimeout := VoiceConnectionStatus.Ready } 0 false
      { status := VoiceConnectionStatus.Disconnected,
        reason := some VoiceConnectionDisconnectReason.Manual,
        closeCode := none } =
      { destroyed := false, rejoinBackoffMs := some 5000,
        stoppedSubscription := false, enteredReadyWait := false,
        readyLockAfter := false } :=
  (spec_C8
    { connectingWithin5s := true, readyWithin20s := true,
      statusAtTimeout := VoiceConnectionStatus.Ready } 0 false
    (some VoiceConnectionDisconnectReason.Manual) none (by decide)).1
    (by decide)

/-- C9: on a transition into `Signalling` or `Connecting` while the
ready-wait lock is clear, the handler enters the wait branch (setting the
lock), and whatever the outcome the lock is clear again when it exits; when
`Ready` arrives within 20 seconds nothing is destroyed; on timeout the
connection is destroyed, unless its state is already `Destroyed`, in which
case it is not. -/
theorem spec_C9 (env : StateChangeEnv) (ra : Nat)
    (st : VoiceConnectionStatus)
    (hst : st = VoiceConnectionStatus.Signalling ∨
      st = VoiceConnectionStatus.Connecting)
    (reason : Option VoiceConnectionDisconnectReason) (code : Option Nat) :
    (onStateChange env ra false
      { status := st, reason := reason, closeCode := code }).enteredReadyWait =
      true ∧
    (onStateChange env ra false
      { status := st, reason := reason, closeCode := code }).readyLockAfter =
      false ∧
    (env.readyWithin20s = true →
      (onStateChange env ra false
        { status := st, reason := reason, closeCode := code }).destroyed =
        false) ∧
    (env.readyWithin20s = false →
      env.statusAtTimeout ≠ VoiceConnectionStatus.Destroyed →
      (onStateChange env ra false
        { status := st, reason := reason, closeCode := code }).destroyed =
        true) ∧
    (env.readyWithin20s = false →
      env.statusAtTimeout = VoiceConnectionStatus.Destroyed →
      (onStateChange env ra false
        { status := st, reason := reason, closeCode := code }).destroyed =
        false) := by
  obtain ⟨c5, r20, sat⟩ := env
  rcases hst with h | h <;> subst h <;> cases r20 <;>
    by_cases hd : sat = VoiceConnectionStatus.Destroyed <;>
    simp [onStateChange, hd]

/-- C9 witness: a `Signalling` transition with the lock clear, where the
ready wait times out while the connection is in `Ready` (not destroyed): the
wait branch runs, the connection is destroyed, and the lock ends clear. -/
theorem spec_C9_witness :
    (onStateChange
      { connectingWithin5s := true, readyWithin20s := false,
        statusAtTimeout := VoiceConnectionStatus.Ready } 3 false
      { status := VoiceConnectionStatus.Signalling, reason := none,
        closeCode := none }).enteredReadyWait = true ∧
    (onStateChange
      { connectingWithin5s := true, readyWithin20s := false,
        statusAtTimeout := VoiceConnectionStatus.Ready } 3 false
      { status := VoiceConnectionStatus.Signalling, reason := none,
        closeCode := none }).readyLockAfter = false ∧
    (onStateChange
      { connectingWithin5s := true, readyWithin20s := false,
        statusAtTimeout := VoiceConnectionStatus.Ready } 3 false
      { status := VoiceConnectionStatus.Signalling, reason := none,
        closeCode := none }).destroyed = true := by
  have h := spec_C9
    { connectingWithin5s := true, readyWithin20s := false,
      statusAtTimeout := VoiceConnectionStatus.Ready } 3
    VoiceConnectionStatus.Signalling (Or.inl rfl) none none
  exact ⟨h.1, h.2.1, h.2.2.2.1 rfl (by decide)⟩

/-- C10: when the bootstrap is called without an existing subscription, the
caller is in a voice channel, and the connection does not reach `Ready`
within 20 seconds, it returns no subscription and sends the join-timeout
follow-up, while the registry still maps the guild id to the newly created
subscription — the `set` performed before the wait is not rolled back. -/
theorem spec_C10 (reg : Registry) (gid : String) :
    (joinVCAndCreateSubscription
      { memberHasVoiceChannel := true, readyWithin20s := false } none reg
      gid).returned = none ∧
    (joinVCAndCreateSubscription
      { memberHasVoiceChannel := true, readyWithin20s := false } none reg
      gid).notes = [Notification.joinTimeoutNote] ∧
    (joinVCAndCreateSubscription
      { memberHasVoiceChannel := true, readyWithin20s := false } none reg
      gid).registry gid = some MusicSubscription.init := by
  refine ⟨rfl, rfl, ?_⟩
  simp [joinVCAndCreateSubscription, Registry.set]
